import Mathlib

/-!
Shallow embedding of `src/net.rs` (TCP-over-IPv4 client adapter for a UEFI-style
firmware environment).

Pointers and opaque firmware handles (`EFI_HANDLE`, `EFI_EVENT`, protocol
interface pointers) are modelled as `Nat`, with `0` standing for the null
pointer/handle.  EFI status codes are modelled as `Nat`, with `0` standing for
`EFI_SUCCESS`.  The firmware (boot services plus the TCP4 service-binding
protocol) is modelled as an oracle `Env` fixing the status and the output value
of each firmware call site that `Tcp4Stream::connect` performs, and `connect`
additionally returns the list of firmware calls it issued, so that resource
acquisition/release behaviour is visible in the model.
-/

/-- Modelled from the spec: `EFI_IPv4_ADDRESS` lives in the `ffi` module, which
is not part of the source under scrutiny; the spec describes it as a fixed-size
(4-byte) array of address bytes, a pure value.  The byte array is modelled as a
list of naturals. -/
structure EFI_IPv4_ADDRESS where
  Addr : List Nat
deriving DecidableEq, Repr

/-- Modelled from the spec: `EFI_IPv4_ADDRESS::zero()` (used by `connect` for
the station address and subnet mask) is the all-zero address. -/
def EFI_IPv4_ADDRESS.zero : EFI_IPv4_ADDRESS := ⟨[0, 0, 0, 0]⟩

/-- Modelled from the spec: `EFI_IPv6_ADDRESS` is the 16-byte analogue. -/
structure EFI_IPv6_ADDRESS where
  Addr : List Nat
deriving DecidableEq, Repr

/-- `Ipv4Addr`: newtype over `EFI_IPv4_ADDRESS` (src/net.rs line 43). -/
structure Ipv4Addr where
  val : EFI_IPv4_ADDRESS
deriving DecidableEq, Repr

/-- `impl From<EFI_IPv4_ADDRESS> for Ipv4Addr` (src/net.rs lines 45-49). -/
def Ipv4Addr.ofEfi (val : EFI_IPv4_ADDRESS) : Ipv4Addr := ⟨val⟩

/-- `impl From<Ipv4Addr> for EFI_IPv4_ADDRESS` (src/net.rs lines 51-55). -/
def EFI_IPv4_ADDRESS.ofIpv4Addr (val : Ipv4Addr) : EFI_IPv4_ADDRESS := val.val

/-- `Ipv6Addr`: newtype over `EFI_IPv6_ADDRESS` (src/net.rs line 58). -/
structure Ipv6Addr where
  val : EFI_IPv6_ADDRESS
deriving DecidableEq, Repr

/-- `impl From<EFI_IPv6_ADDRESS> for Ipv6Addr` (src/net.rs lines 60-64). -/
def Ipv6Addr.ofEfi (val : EFI_IPv6_ADDRESS) : Ipv6Addr := ⟨val⟩

/-- `impl From<Ipv6Addr> for EFI_IPv6_ADDRESS` (src/net.rs lines 66-70). -/
def EFI_IPv6_ADDRESS.ofIpv6Addr (val : Ipv6Addr) : EFI_IPv6_ADDRESS := val.val

/-- `SocketAddrV4` (src/net.rs lines 77-80); the port is a `u16` in the source,
modelled as `Nat` (no arithmetic is ever performed on it). -/
structure SocketAddrV4 where
  ip : Ipv4Addr
  port : Nat
deriving DecidableEq, Repr

/-- `SocketAddrV4::new` (src/net.rs lines 83-85). -/
def SocketAddrV4.mk' (ip : Ipv4Addr) (port : Nat) : SocketAddrV4 := ⟨ip, port⟩

/-- `SocketAddrV4::ip` accessor (src/net.rs lines 87-89). -/
def SocketAddrV4.ipAcc (s : SocketAddrV4) : Ipv4Addr := s.ip

/-- `SocketAddrV4::port` accessor (src/net.rs lines 91-93). -/
def SocketAddrV4.portAcc (s : SocketAddrV4) : Nat := s.port

/-- `SocketAddrV6` (src/net.rs lines 96-99). -/
structure SocketAddrV6 where
  ip : Ipv6Addr
  port : Nat
deriving DecidableEq, Repr

/-- `SocketAddrV6::new` (src/net.rs lines 102-104). -/
def SocketAddrV6.mk' (ip : Ipv6Addr) (port : Nat) : SocketAddrV6 := ⟨ip, port⟩

/-- `SocketAddrV6::ip` accessor (src/net.rs lines 106-108). -/
def SocketAddrV6.ipAcc (s : SocketAddrV6) : Ipv6Addr := s.ip

/-- `SocketAddrV6::port` accessor (src/net.rs lines 110-112). -/
def SocketAddrV6.portAcc (s : SocketAddrV6) : Nat := s.port

/-- Modelled from the spec: the completion token of the `ffi::tcp4` module (not
under src/) pairs a signal object ("event") with a completion status. -/
structure EFI_TCP4_COMPLETION_TOKEN where
  Event : Nat
  Status : Nat
deriving DecidableEq, Repr

/-- Modelled from the spec: `EFI_TCP4_COMPLETION_TOKEN::default()` is zeroed. -/
def EFI_TCP4_COMPLETION_TOKEN.default : EFI_TCP4_COMPLETION_TOKEN := ⟨0, 0⟩

/-- Modelled from the spec: the connection token wraps a completion token. -/
structure EFI_TCP4_CONNECTION_TOKEN where
  CompletionToken : EFI_TCP4_COMPLETION_TOKEN
deriving DecidableEq, Repr

/-- Modelled from the spec: `EFI_TCP4_CONNECTION_TOKEN::default()` is zeroed. -/
def EFI_TCP4_CONNECTION_TOKEN.default : EFI_TCP4_CONNECTION_TOKEN :=
  ⟨EFI_TCP4_COMPLETION_TOKEN.default⟩

/-- Modelled from the spec: the I/O token wraps a completion token (its packet
payload pointer is irrelevant to the claims and modelled as a `Nat`, null 0). -/
structure EFI_TCP4_IO_TOKEN where
  CompletionToken : EFI_TCP4_COMPLETION_TOKEN
  Packet : Nat
deriving DecidableEq, Repr

/-- Modelled from the spec: `EFI_TCP4_IO_TOKEN::default()` is zeroed. -/
def EFI_TCP4_IO_TOKEN.default : EFI_TCP4_IO_TOKEN :=
  ⟨EFI_TCP4_COMPLETION_TOKEN.default, 0⟩

/-- Modelled from the spec: the close token wraps a completion token (its
abort-on-close flag is irrelevant to the claims and modelled as a `Bool`). -/
structure EFI_TCP4_CLOSE_TOKEN where
  CompletionToken : EFI_TCP4_COMPLETION_TOKEN
  AbortOnClose : Bool
deriving DecidableEq, Repr

/-- Modelled from the spec: `EFI_TCP4_CLOSE_TOKEN::default()` is zeroed. -/
def EFI_TCP4_CLOSE_TOKEN.default : EFI_TCP4_CLOSE_TOKEN :=
  ⟨EFI_TCP4_COMPLETION_TOKEN.default, false⟩

/-- `EFI_TCP4_ACCESS_POINT` as used by `connect` (src/net.rs lines 149-157);
`TRUE` of the `ffi` module is modelled as `Bool` `true`. -/
structure EFI_TCP4_ACCESS_POINT where
  UseDefaultAddress : Bool
  StationAddress : EFI_IPv4_ADDRESS
  SubnetMask : EFI_IPv4_ADDRESS
  StationPort : Nat
  RemoteAddress : EFI_IPv4_ADDRESS
  RemotePort : Nat
  ActiveFlag : Bool
deriving DecidableEq, Repr

/-- `EFI_TCP4_CONFIG_DATA` as used by `connect` (src/net.rs lines 146-159);
`ControlOption` is a raw pointer in the source, modelled as `Nat` (null 0). -/
structure EFI_TCP4_CONFIG_DATA where
  TypeOfService : Nat
  TimeToLive : Nat
  AccessPoint : EFI_TCP4_ACCESS_POINT
  ControlOption : Nat
deriving DecidableEq, Repr

/-- The `config_data` value built at the top of `Tcp4Stream::connect`
(src/net.rs lines 146-159), as a function of the caller's socket address. -/
def configData (addr : SocketAddrV4) : EFI_TCP4_CONFIG_DATA :=
  { TypeOfService := 0
    TimeToLive := 255
    AccessPoint :=
      { UseDefaultAddress := true
        StationAddress := EFI_IPv4_ADDRESS.zero
        SubnetMask := EFI_IPv4_ADDRESS.zero
        StationPort := 0
        RemoteAddress := EFI_IPv4_ADDRESS.ofIpv4Addr (SocketAddrV4.ipAcc addr)
        RemotePort := SocketAddrV4.portAcc addr
        ActiveFlag := true }
    ControlOption := 0 }

/-- Which of the four completion tokens a `CreateEvent` call site fills. -/
inductive TokenKind where
  | connect
  | send
  | recv
  | close
deriving DecidableEq, Repr

/-- A firmware call observable in the model.  `Tcp4Stream::connect` in the
source issues only the first four kinds; the remaining kinds (configure the
instance, issue the connect request, wait for an event, close an event, destroy
the child via the service binding, close the protocol) are the calls the spec
describes for the rest of the connect sequence and for teardown, and are
included so that their absence from a trace can be stated. -/
inductive FfiCall where
  | createEvent (k : TokenKind)
  | locateProtocol
  | createChild
  | openProtocol
  | configure
  | connectReq
  | waitForSignal
  | closeEvent
  | destroyChild
  | closeProtocol
deriving DecidableEq, Repr

/-- Bool discriminator for `createEvent` calls. -/
def FfiCall.isCreateEvent : FfiCall → Bool
  | .createEvent _ => true
  | _ => false

/-- Bool discriminator for the calls that release a firmware resource
(close an event, destroy the child instance, close the protocol). -/
def FfiCall.isRelease : FfiCall → Bool
  | .closeEvent => true
  | .destroyChild => true
  | .closeProtocol => true
  | _ => false

/-- Bool discriminator for the configure / connect-request / wait calls of the
spec's connect sequence steps 5-7. -/
def FfiCall.isConnectDrive : FfiCall → Bool
  | .configure => true
  | .connectReq => true
  | .waitForSignal => true
  | _ => false

/-- The firmware oracle: one status (and, where the call outputs a value, one
output) per firmware call site executed by `Tcp4Stream::connect`, in source
order.  `bootServices` models the pointer `system_table().BootServices`. -/
structure Env where
  bootServices : Nat
  createEventStatus1 : Nat
  createEventHandle1 : Nat
  createEventStatus2 : Nat
  createEventHandle2 : Nat
  createEventStatus3 : Nat
  createEventHandle3 : Nat
  createEventStatus4 : Nat
  createEventHandle4 : Nat
  locateProtocolStatus : Nat
  createChildStatus : Nat
  createChildHandle : Nat
  openProtocolStatus : Nat
  openProtocolIface : Nat
deriving DecidableEq, Repr

/-- Modelled from the spec: `IsSuccess` of the `ffi` module (not under src/)
recognises the success status; `0` models `EFI_SUCCESS`. -/
def IsSuccess (status : Nat) : Bool := status == 0

/-- `Tcp4Stream` (src/net.rs lines 120-128). -/
structure Tcp4Stream where
  bs : Nat
  device_handle : Nat
  protocol : Nat
  connect_token : EFI_TCP4_CONNECTION_TOKEN
  recv_token : EFI_TCP4_IO_TOKEN
  send_token : EFI_TCP4_IO_TOKEN
  close_token : EFI_TCP4_CLOSE_TOKEN
deriving DecidableEq, Repr

/-- `Tcp4Stream::new` (src/net.rs lines 131-141): `bs` is set to
`system_table().BootServices` (the `Env.bootServices` pointer of the model),
the device handle and protocol pointer to null, and the four tokens to their
zeroed defaults. -/
def Tcp4Stream.new (env : Env) : Tcp4Stream :=
  { bs := env.bootServices
    device_handle := 0
    protocol := 0
    connect_token := EFI_TCP4_CONNECTION_TOKEN.default
    recv_token := EFI_TCP4_IO_TOKEN.default
    send_token := EFI_TCP4_IO_TOKEN.default
    close_token := EFI_TCP4_CLOSE_TOKEN.default }

/-- `Tcp4Stream::connect` (src/net.rs lines 145-184), step for step:
build `config_data` (which the source then never uses), create the stream via
`new`, then under `ret_on_err!` (a macro of this repository outside src/ whose
behaviour, per the source's own comment on line 164, is "to return early" when
the firmware call's status is not a success; the early return propagates that
status as the error and performs no other action) issue, in order: four
`CreateEvent` calls filling the connect/send/recv/close tokens' events, a
`LocateProtocol` for the TCP4 service binding, a `CreateChild` filling
`device_handle`, and an `OpenProtocol` filling `protocol`; finally return
`Ok(stream)`.  The returned list records the firmware calls issued. -/
def Tcp4Stream.connect (env : Env) (addr : SocketAddrV4) :
    Except Nat Tcp4Stream × List FfiCall :=
  let _config_data := configData addr
  let stream := Tcp4Stream.new env
  let tr := [FfiCall.createEvent TokenKind.connect]
  if ¬ IsSuccess env.createEventStatus1 then (.error env.createEventStatus1, tr) else
  let stream := { stream with connect_token.CompletionToken.Event := env.createEventHandle1 }
  let tr := tr ++ [FfiCall.createEvent TokenKind.send]
  if ¬ IsSuccess env.createEventStatus2 then (.error env.createEventStatus2, tr) else
  let stream := { stream with send_token.CompletionToken.Event := env.createEventHandle2 }
  let tr := tr ++ [FfiCall.createEvent TokenKind.recv]
  if ¬ IsSuccess env.createEventStatus3 then (.error env.createEventStatus3, tr) else
  let stream := { stream with recv_token.CompletionToken.Event := env.createEventHandle3 }
  let tr := tr ++ [FfiCall.createEvent TokenKind.close]
  if ¬ IsSuccess env.createEventStatus4 then (.error env.createEventStatus4, tr) else
  let stream := { stream with close_token.CompletionToken.Event := env.createEventHandle4 }
  let tr := tr ++ [FfiCall.locateProtocol]
  if ¬ IsSuccess env.locateProtocolStatus then (.error env.locateProtocolStatus, tr) else
  let tr := tr ++ [FfiCall.createChild]
  if ¬ IsSuccess env.createChildStatus then (.error env.createChildStatus, tr) else
  let stream := { stream with device_handle := env.createChildHandle }
  let tr := tr ++ [FfiCall.openProtocol]
  if ¬ IsSuccess env.openProtocolStatus then (.error env.openProtocolStatus, tr) else
  let stream := { stream with protocol := env.openProtocolIface }
  (.ok stream, tr)

/-- The source defines no `Drop` implementation for `Tcp4Stream` (nor any
`close`): every field is a raw pointer, handle or plain struct, so discarding a
`Tcp4Stream` runs Rust's default drop, which issues no firmware call at all.
The returned list records the firmware calls issued on drop. -/
def Tcp4Stream.drop (_s : Tcp4Stream) : List FfiCall := []

/-- Modelled from the spec: the error taxonomy of section 7, used only for the
declared-but-unimplemented IPv6 connect variant. -/
inductive SpecError where
  | Unsupported
  | ResourceExhausted
  | ProtocolUnavailable
  | ConfigurationRejected
  | ConnectionRefused
deriving DecidableEq, Repr

/-- Modelled from the spec: section 4.3 declares the IPv6 connect variant
unimplemented — "calling it must fail fast with `Unsupported`, not silently
succeed".  No IPv6 connect exists in the source; this definition follows the
spec's words. -/
def Tcp4Stream.connectV6 (_addr : SocketAddrV6) : Except SpecError Tcp4Stream :=
  .error SpecError.Unsupported

/-- A concrete caller address: 10.0.0.1, port 80. -/
def addr0 : SocketAddrV4 := ⟨⟨⟨[10, 0, 0, 1]⟩⟩, 80⟩

/-- A firmware oracle on which every call succeeds. -/
def envOk : Env :=
  { bootServices := 3
    createEventStatus1 := 0, createEventHandle1 := 11
    createEventStatus2 := 0, createEventHandle2 := 12
    createEventStatus3 := 0, createEventHandle3 := 13
    createEventStatus4 := 0, createEventHandle4 := 14
    locateProtocolStatus := 0
    createChildStatus := 0, createChildHandle := 7
    openProtocolStatus := 0, openProtocolIface := 9 }

/-- A firmware oracle whose third `CreateEvent` fails with status 9
(modelling `EFI_OUT_OF_RESOURCES`) after two successful creations. -/
def envFail3 : Env :=
  { envOk with createEventStatus3 := 9 }

/-- A firmware oracle whose `LocateProtocol` fails with status 14. -/
def envLocateFail : Env :=
  { envOk with locateProtocolStatus := 14 }

/-- A firmware oracle whose `CreateChild` fails with status 14. -/
def envChildFail : Env :=
  { envOk with createChildStatus := 14 }

/-- C9: for every ip and port, `SocketAddrV4::new(ip, port).ip()` returns
exactly `ip` and `.port()` returns exactly `port`, and likewise for
`SocketAddrV6::new`; construction and both accessors are total pure functions
of their arguments. -/
theorem socket_addr_new_accessors (ip4 : Ipv4Addr) (p : Nat) (ip6 : Ipv6Addr) (q : Nat) :
    SocketAddrV4.ipAcc (SocketAddrV4.mk' ip4 p) = ip4 ∧
    SocketAddrV4.portAcc (SocketAddrV4.mk' ip4 p) = p ∧
    SocketAddrV6.ipAcc (SocketAddrV6.mk' ip6 q) = ip6 ∧
    SocketAddrV6.portAcc (SocketAddrV6.mk' ip6 q) = q :=
  ⟨rfl, rfl, rfl, rfl⟩

/-- C10: the `From` conversions between `Ipv4Addr` and `EFI_IPv4_ADDRESS` are
mutually inverse, and likewise between `Ipv6Addr` and `EFI_IPv6_ADDRESS`. -/
theorem ip_addr_conversion_roundtrip (a : EFI_IPv4_ADDRESS) (v : Ipv4Addr)
    (b : EFI_IPv6_ADDRESS) (w : Ipv6Addr) :
    EFI_IPv4_ADDRESS.ofIpv4Addr (Ipv4Addr.ofEfi a) = a ∧
    Ipv4Addr.ofEfi (EFI_IPv4_ADDRESS.ofIpv4Addr v) = v ∧
    EFI_IPv6_ADDRESS.ofIpv6Addr (Ipv6Addr.ofEfi b) = b ∧
    Ipv6Addr.ofEfi (EFI_IPv6_ADDRESS.ofIpv6Addr w) = w :=
  ⟨rfl, rfl, rfl, rfl⟩

/-- C4: for every caller-supplied socket address, the configuration data built
by `Tcp4Stream::connect` has time-to-live 255, the auto-assigned station
address with station port 0, the caller's ip and port as remote address and
remote port, and active (client) mode. -/
theorem connect_config_data_fields (addr : SocketAddrV4) :
    (configData addr).TimeToLive = 255 ∧
    (configData addr).AccessPoint.UseDefaultAddress = true ∧
    (configData addr).AccessPoint.StationPort = 0 ∧
    (configData addr).AccessPoint.RemoteAddress
      = EFI_IPv4_ADDRESS.ofIpv4Addr (SocketAddrV4.ipAcc addr) ∧
    (configData addr).AccessPoint.RemotePort = SocketAddrV4.portAcc addr ∧
    (configData addr).AccessPoint.ActiveFlag = true :=
  ⟨rfl, rfl, rfl, rfl, rfl, rfl⟩

/-- C8 counterexample: `Tcp4Stream::new` does not leave all fields zero/null:
its `bs` field is set to `system_table().BootServices`, here the non-null
pointer 3 of the concrete environment `envOk`. -/
theorem new_bs_field_not_null :
    (Tcp4Stream.new envOk).bs = 3 ∧ (Tcp4Stream.new envOk).bs ≠ 0 := by
  decide

/-- C8 (amended): every `Tcp4Stream` produced by `Tcp4Stream::new` has a null
device handle, a null protocol pointer, and default (zeroed) connect, send,
receive and close tokens, while its `bs` field holds the shared boot-services
dispatch-table pointer. -/
theorem new_fields_initial (env : Env) :
    (Tcp4Stream.new env).device_handle = 0 ∧
    (Tcp4Stream.new env).protocol = 0 ∧
    (Tcp4Stream.new env).connect_token = EFI_TCP4_CONNECTION_TOKEN.default ∧
    (Tcp4Stream.new env).send_token = EFI_TCP4_IO_TOKEN.default ∧
    (Tcp4Stream.new env).recv_token = EFI_TCP4_IO_TOKEN.default ∧
    (Tcp4Stream.new env).close_token = EFI_TCP4_CLOSE_TOKEN.default ∧
    (Tcp4Stream.new env).bs = env.bootServices :=
  ⟨rfl, rfl, rfl, rfl, rfl, rfl, rfl⟩

/-- C6: invoking the (spec-modelled, declared-but-unimplemented) IPv6 connect
variant fails with `Unsupported` for every IPv6 socket address and never
returns a handle. -/
theorem connect_v6_unsupported (addr : SocketAddrV6) :
    Tcp4Stream.connectV6 addr = Except.error SpecError.Unsupported ∧
    ∀ s : Tcp4Stream, Tcp4Stream.connectV6 addr ≠ Except.ok s :=
  ⟨rfl, fun _ h => Except.noConfusion h⟩

/-- C7 (code evidence): discarding a `Tcp4Stream` without an explicit close
issues no firmware call at all — in particular no event close, no child
destruction and no protocol close — because the source defines no `Drop`
implementation; the spec's automatic reverse-order teardown does not exist in
the code. -/
theorem drop_issues_no_release_calls (s : Tcp4Stream) :
    Tcp4Stream.drop s = [] ∧
    (Tcp4Stream.drop s).countP (fun c => FfiCall.isRelease c) = 0 :=
  ⟨rfl, rfl⟩

/-- C5: when the four event creations succeed, the firmware-call trace of
`Tcp4Stream::connect` starts with exactly four `CreateEvent` calls — one each
for the connect, send, receive and close tokens, in source order — and no
`CreateEvent` occurs later, so all four precede the service-binding lookup,
the child creation and the protocol open. -/
theorem connect_creates_four_events_first (env : Env) (addr : SocketAddrV4)
    (h1 : env.createEventStatus1 = 0) (h2 : env.createEventStatus2 = 0)
    (h3 : env.createEventStatus3 = 0) (h4 : env.createEventStatus4 = 0) :
    ∃ rest, (Tcp4Stream.connect env addr).2 =
        [FfiCall.createEvent TokenKind.connect, FfiCall.createEvent TokenKind.send,
         FfiCall.createEvent TokenKind.recv, FfiCall.createEvent TokenKind.close] ++ rest ∧
      ∀ c ∈ rest, FfiCall.isCreateEvent c = false := by
  by_cases hl : env.locateProtocolStatus = 0
  · by_cases hc : env.createChildStatus = 0
    · by_cases ho : env.openProtocolStatus = 0
      · refine ⟨[.locateProtocol, .createChild, .openProtocol], ?_, by decide⟩
        simp [Tcp4Stream.connect, IsSuccess, h1, h2, h3, h4, hl, hc, ho]
      · refine ⟨[.locateProtocol, .createChild, .openProtocol], ?_, by decide⟩
        simp [Tcp4Stream.connect, IsSuccess, h1, h2, h3, h4, hl, hc, ho]
    · refine ⟨[.locateProtocol, .createChild], ?_, by decide⟩
      simp [Tcp4Stream.connect, IsSuccess, h1, h2, h3, h4, hl, hc]
  · refine ⟨[.locateProtocol], ?_, by decide⟩
    simp [Tcp4Stream.connect, IsSuccess, h1, h2, h3, h4, hl]

/-- C5 witness: the four-`CreateEvent` prefix property at the concrete
all-success environment `envOk` and address `addr0`. -/
theorem connect_creates_four_events_first_witness :
    ∃ rest, (Tcp4Stream.connect envOk addr0).2 =
        [FfiCall.createEvent TokenKind.connect, FfiCall.createEvent TokenKind.send,
         FfiCall.createEvent TokenKind.recv, FfiCall.createEvent TokenKind.close] ++ rest ∧
      ∀ c ∈ rest, FfiCall.isCreateEvent c = false :=
  connect_creates_four_events_first envOk addr0 rfl rfl rfl rfl

/-- C3 counterexample: a service-binding-lookup failure and a child-creation
failure with the same firmware status produce the same error from
`Tcp4Stream::connect` (the propagated status 14), so the two steps do not map
to distinct error variants as the claim requires. -/
theorem connect_same_error_locate_vs_child :
    (Tcp4Stream.connect envLocateFail addr0).1 = Except.error 14 ∧
    (Tcp4Stream.connect envChildFail addr0).1 = Except.error 14 ∧
    (Tcp4Stream.connect envLocateFail addr0).1 = (Tcp4Stream.connect envChildFail addr0).1 :=
  ⟨rfl, rfl, rfl⟩

/-- C3 (amended): a failure of the service-binding lookup, of child-instance
creation, or of opening the TCP protocol interface each makes
`Tcp4Stream::connect` return an error — propagating the failing firmware
status unchanged, with no per-step error taxonomy — and never a handle. -/
theorem connect_propagates_step_status (env : Env) (addr : SocketAddrV4)
    (h1 : env.createEventStatus1 = 0) (h2 : env.createEventStatus2 = 0)
    (h3 : env.createEventStatus3 = 0) (h4 : env.createEventStatus4 = 0) :
    (env.locateProtocolStatus ≠ 0 →
      (Tcp4Stream.connect env addr).1 = Except.error env.locateProtocolStatus) ∧
    (env.locateProtocolStatus = 0 → env.createChildStatus ≠ 0 →
      (Tcp4Stream.connect env addr).1 = Except.error env.createChildStatus) ∧
    (env.locateProtocolStatus = 0 → env.createChildStatus = 0 → env.openProtocolStatus ≠ 0 →
      (Tcp4Stream.connect env addr).1 = Except.error env.openProtocolStatus) := by
  refine ⟨fun hl => ?_, fun hl hc => ?_, fun hl hc ho => ?_⟩
  · simp [Tcp4Stream.connect, IsSuccess, h1, h2, h3, h4, hl]
  · simp [Tcp4Stream.connect, IsSuccess, h1, h2, h3, h4, hl, hc]
  · simp [Tcp4Stream.connect, IsSuccess, h1, h2, h3, h4, hl, hc, ho]

/-- C3 witness: at the concrete environment whose service-binding lookup fails
with status 14, `connect` returns that status as its error. -/
theorem connect_propagates_step_status_witness :
    (Tcp4Stream.connect envLocateFail addr0).1 = Except.error 14 :=
  (connect_propagates_step_status envLocateFail addr0 rfl rfl rfl rfl).1 (by decide)

/-- C1 (code evidence): on an environment where every firmware call succeeds,
`Tcp4Stream::connect` returns `Ok` although its firmware-call trace contains
no configure call, no connect request and no wait on the connect token's
event — the connect sequence's steps 5-7 are absent from the code. -/
theorem connect_ok_without_configure_or_wait :
    (∃ s, (Tcp4Stream.connect envOk addr0).1 = Except.ok s) ∧
    (Tcp4Stream.connect envOk addr0).2.countP (fun c => FfiCall.isConnectDrive c) = 0 :=
  ⟨⟨_, rfl⟩, by decide⟩

/-- C2 (code evidence): when the third of the four event creations fails with
status 9 after two successes, `Tcp4Stream::connect` returns that status as an
error having issued exactly three `CreateEvent` calls and no release call of
any kind — the two already-created events are not destroyed. -/
theorem connect_event_failure_no_rollback :
    (Tcp4Stream.connect envFail3 addr0).1 = Except.error 9 ∧
    (Tcp4Stream.connect envFail3 addr0).2 =
      [FfiCall.createEvent TokenKind.connect, FfiCall.createEvent TokenKind.send,
       FfiCall.createEvent TokenKind.recv] ∧
    (Tcp4Stream.connect envFail3 addr0).2.countP (fun c => FfiCall.isRelease c) = 0 :=
  ⟨rfl, rfl, by decide⟩
